import Mathlib

/-!
Shallow embedding of the autoregressive forecasting core of the Quantara
repository (src/Milestone_3/api/app.py): the feature synthesizer
`_append_synthetic_row` (lines 704-819), the calibration estimator
(lines 985-1005) and the iterative forecast driver `predict`
(lines 882-1051).

Modelling choices:
* Prices, volumes and derived indicators are real numbers (Python floats,
  idealized); timestamps are rationals measured in hours (pandas Timestamps
  and Timedeltas are exact, and all arithmetic on them here is addition of
  whole numbers of hours and exact division by the step size).
* The external capabilities (feature scaler, price scaler, Keras model) are
  opaque per §6 of the design: they are bundled in an `Externals` structure
  of abstract functions, and the driver composes them exactly as the source
  does (transform → predict → clip to feature_range → inverse_transform).
* Fallible code paths (ValueError / HTTPException) are modelled with
  `Option` / `Except`.
-/

namespace Quantara

/-- One row of the processed feature table.  Columns are those used by
`predict` (app.py lines 917-922 plus `close` and the index timestamp).
`ts` is the row's index timestamp in hours.  The `open` column is named
`open_price` because `open` is a Lean keyword (the source itself uses the
variable name `open_price`, line 725). -/
structure FeatureRow where
  ts : ℚ
  open_price : ℝ
  high : ℝ
  low : ℝ
  close : ℝ
  volume : ℝ
  missing_flag : ℝ
  return_1h : ℝ
  volatility_24h : ℝ
  ma_24 : ℝ
  ma_168 : ℝ
  ma_ratio : ℝ
  vol_change : ℝ

/-- np.clip(x, lo, hi) (app.py lines 999, 1014, 1030). -/
noncomputable def npClip (x lo hi : ℝ) : ℝ := min (max x lo) hi

/-- The last `n` elements of a list: `df.iloc[-n:]` (whole list when
`n ≥ length`, as in pandas). -/
def lastN (n : ℕ) (l : List α) : List α := l.drop (l.length - n)

/-- Arithmetic mean of a list of reals: `.mean()` (app.py line 807). -/
noncomputable def listMean (l : List ℝ) : ℝ := l.sum / l.length

/-- The synthetic row built by `_append_synthetic_row` (app.py lines
721-813) from a non-empty window `df_ext` whose last row is `prev_row`.
The extended frame `out` there has `df_ext.length + 1 ≥ 2` rows, so the
`len(out) >= 2` branches are the ones taken; `out[...].iloc[-2]` is
`prev_row` and `out["close"].iloc[-w:]` draws from the closes of `df_ext`
followed by the new `close_price`.  Python truthiness guards
(`if prev_close_for_ret`, `if prev_vol_for_change`, `if ma_168`) are
zero tests; `int(window_hours / horizon_hours)` truncates, which for
positive arguments is natural-number division. -/
noncomputable def mkSyntheticRow (df_ext : List FeatureRow) (prev_row : FeatureRow)
    (ts : ℚ) (close_price : ℝ) (horizon_hours : ℕ) : FeatureRow :=
  let prev_close : ℝ := prev_row.close
  let prev_volume : ℝ := prev_row.volume
  let open_price : ℝ := prev_close
  let high_price : ℝ := max open_price close_price
  let low_price : ℝ := min open_price close_price
  let volume : ℝ := prev_volume
  -- return_1h (lines 749-767)
  let step_return : ℝ :=
    if prev_close ≠ 0 then close_price / prev_close - 1 else 0
  let ret1h : ℝ :=
    if 1 < horizon_hours then
      if -1 < step_return then
        (1 + step_return) ^ ((1 : ℝ) / (horizon_hours : ℝ)) - 1
      else
        step_return / (horizon_hours : ℝ)
    else
      step_return
  -- vol_change (lines 769-778); the new volume is `volume` (carried forward)
  let volchg : ℝ :=
    if prev_volume ≠ 0 then volume / prev_volume - 1 else 0
  -- volatility_24h (lines 780-793): carried forward from the previous row
  let vol24 : ℝ := prev_row.volatility_24h
  -- moving averages (lines 795-807), over the closes of the extended frame
  let closes : List ℝ := df_ext.map FeatureRow.close ++ [close_price]
  let out_len : ℕ := df_ext.length + 1
  let ma24steps : ℕ := max 1 (24 / horizon_hours)
  let ma24 : ℝ := listMean (lastN (min ma24steps out_len) closes)
  let ma168steps : ℕ := max 1 (168 / horizon_hours)
  let ma168 : ℝ := listMean (lastN (min ma168steps out_len) closes)
  -- ma_ratio (lines 809-813)
  let maratio : ℝ := if ma168 ≠ 0 then ma24 / ma168 else 1
  { ts := ts
    open_price := open_price
    high := high_price
    low := low_price
    close := close_price
    volume := volume
    missing_flag := 1
    return_1h := ret1h
    volatility_24h := vol24
    ma_24 := ma24
    ma_168 := ma168
    ma_ratio := maratio
    vol_change := volchg }

/-- `_append_synthetic_row` (app.py lines 704-819).  Raises ValueError on an
empty frame (line 718-719), modelled as `none`.  For a fresh timestamp `ts`
beyond every existing index entry, `out.loc[ts, col] = val` appends a new
last row, the final `sort_index()` is the identity, and `ffill()` is the
identity on a frame with no missing values (every column of the new row has
just been assigned), so the result is the input with one synthetic row
appended. -/
noncomputable def append_synthetic_row (df_ext : List FeatureRow) (ts : ℚ)
    (close_price : ℝ) (horizon_hours : ℕ) : Option (List FeatureRow) :=
  match df_ext.getLast? with
  | none => none
  | some prev_row =>
      some (df_ext ++ [mkSyntheticRow df_ext prev_row ts close_price horizon_hours])

/-- The opaque external capabilities of §6: feature scaler, price scaler and
sequence regressor, consumed as abstract deterministic functions.
`model_predict` stands for `model.predict(window.reshape(1, L, F))[0][0]`;
`feature_range` is the price scaler's declared output range (the source
defaults it to `(0.0, 1.0)` via getattr, lines 997, 1012, 1028);
`n_features_in` is the feature scaler's `n_features_in_` attribute
(`none` when absent, line 928). -/
structure Externals where
  transform : List (List ℝ) → List (List ℝ)
  n_features_in : Option ℕ
  model_predict : List (List ℝ) → ℝ
  feature_range : ℝ × ℝ
  inverse_transform : ℝ → ℝ

/-- The feature vector of one row, in the order of `feature_cols`
(app.py lines 917-922): `close` is deliberately excluded. -/
def feature_vec (r : FeatureRow) : List ℝ :=
  [r.open_price, r.high, r.low, r.volume, r.return_1h, r.volatility_24h,
   r.ma_24, r.ma_168, r.ma_ratio, r.vol_change, r.missing_flag]

/-- `df[feature_cols].values` for a list of rows. -/
def feature_matrix (rows : List FeatureRow) : List (List ℝ) :=
  rows.map feature_vec

/-- `len(feature_cols)` (app.py lines 917-922). -/
def FEATURE_COUNT : ℕ := 11

/-- One pass through the scaler/model/clip/inverse pipeline, applied to a
slice of rows: app.py lines 1008-1015 (and identically 992-1000,
1024-1031). -/
noncomputable def pipeline (ext : Externals) (rows : List FeatureRow) : ℝ :=
  let scaled := ext.transform (feature_matrix rows)
  let next_scaled := ext.model_predict scaled
  let lo := ext.feature_range.1
  let hi := ext.feature_range.2
  ext.inverse_transform (npClip next_scaled lo hi)

/-- `SEQ_LEN` (app.py line 936). -/
def SEQ_LEN : ℕ := 48

/-- The retrodicted "now": the pipeline applied to
`base_df[feature_cols].iloc[-SEQ_LEN-1:-1]`, i.e. the last `SEQ_LEN` rows
once the final row is removed (app.py lines 992-1000). -/
noncomputable def pred_now (ext : Externals) (base_df : List FeatureRow) : ℝ :=
  pipeline ext (lastN SEQ_LEN base_df.dropLast)

/-- The calibration estimator (app.py lines 985-1005): ratio 1.0 unless the
window can be retrodicted (length ≥ SEQ_LEN + 1) and the retrodicted now is
positive, in which case actual/predicted clamped to [0.8, 1.2]. -/
noncomputable def calibration_ratio (ext : Externals) (base_df : List FeatureRow)
    (base_close : ℝ) : ℝ :=
  if SEQ_LEN + 1 ≤ base_df.length then
    if 0 < pred_now ext base_df then
      max 0.8 (min 1.2 (base_close / pred_now ext base_df))
    else 1
  else 1

/-- Resolution of the forecast start time (app.py lines 951-956): an omitted
`start_timestamp` resolves to "now" with live data and to the last observed
timestamp with the static source. -/
def resolve_start (start_timestamp : Option ℚ) (use_live_data : Bool)
    (now base_timestamp : ℚ) : ℚ :=
  match start_timestamp with
  | none => if use_live_data then now else base_timestamp
  | some t => t

/-- The warmup-step computation (app.py lines 965-970):
`int(np.ceil(diff / step_delta))` is the exact ceiling of the rational
`(start_ts - base_timestamp) / H`. -/
def warmup_steps_of (start_ts base_timestamp : ℚ) (H : ℕ) : ℤ :=
  if start_ts ≤ base_timestamp then 0
  else max 0 (⌈(start_ts - base_timestamp) / (H : ℚ)⌉ - 1)

/-- The index timestamp of the last row: `df.index[-1]` (app.py line 942). -/
def last_ts (w : List FeatureRow) : ℚ :=
  ((w.getLast?).map FeatureRow.ts).getD 0

/-- The close of the last row: `df["close"].iloc[-1]` (app.py line 943). -/
noncomputable def last_close (w : List FeatureRow) : ℝ :=
  ((w.getLast?).map FeatureRow.close).getD 0

/-- One autoregressive step (app.py lines 1008-1021 = 1024-1042): predict
the next close from the last `SEQ_LEN` rows, apply the calibration ratio,
advance the timestamp by `H` hours and append the synthetic row.  On the
driver's path the window is never empty, so the `getD` default is inert. -/
noncomputable def step_window (ext : Externals) (H : ℕ) (ratio : ℝ)
    (w : List FeatureRow) : List FeatureRow :=
  let next_close : ℝ := pipeline ext (lastN SEQ_LEN w) * ratio
  let next_ts : ℚ := last_ts w + (H : ℚ)
  (append_synthetic_row w next_ts next_close H).getD w

/-- The warmup loop (app.py lines 1007-1021): steps whose output is not
recorded. -/
noncomputable def warmup_loop (ext : Externals) (H : ℕ) (ratio : ℝ) :
    ℕ → List FeatureRow → List FeatureRow
  | 0, w => w
  | Nat.succ n, w => warmup_loop ext H ratio n (step_window ext H ratio w)

/-- One recorded forecast point (app.py lines 1037-1040). -/
structure ForecastStep where
  timestamp : ℚ
  predicted_price : ℝ

/-- The forecasting loop (app.py lines 1023-1042): identical steps, but each
one's timestamp and calibrated price are recorded. -/
noncomputable def forecast_loop (ext : Externals) (H : ℕ) (ratio : ℝ) :
    ℕ → List FeatureRow → List ForecastStep
  | 0, _ => []
  | Nat.succ n, w =>
      { timestamp := last_ts w + (H : ℚ)
        predicted_price := pipeline ext (lastN SEQ_LEN w) * ratio }
        :: forecast_loop ext H ratio n (step_window ext H ratio w)

/-- The error taxonomy of the validation path of `predict` (§7).  Upstream
load / fetch / missing-column failures concern the external collaborators
(model files, CSV, Binance) and are outside the embedded core. -/
inductive PredictError where
  | unsupportedCoin
  | unsupportedHorizon
  | invalidStepCount
  | featureScalerMismatch
  | insufficientHistory
  | excessiveWarmup
deriving DecidableEq

/-- The request body (app.py lines 84-89).  The horizon string "1h"/"24h" is
represented by its parsed hour count `int(horizon.replace("h", ""))`
(line 935); `steps_ahead` is a machine integer. -/
structure PredictRequest where
  coin : String
  horizon_hours : ℕ
  start_timestamp : Option ℚ
  steps_ahead : ℤ
  use_live_data : Bool

/-- SUPPORTED_COINS (app.py line 120). -/
def SUPPORTED_COINS : List String :=
  ["bitcoin", "ethereum", "solana", "cardano", "binancecoin"]

/-- SUPPORTED_HORIZONS (app.py line 121), as parsed hour counts. -/
def SUPPORTED_HORIZON_HOURS : List ℕ := [1, 24]

/-- MAX_WARMUP_STEPS = SEQ_LEN (app.py line 974). -/
def MAX_WARMUP_STEPS : ℤ := (SEQ_LEN : ℤ)

/-- The feature-scaler arity check (app.py lines 928-933). -/
def scaler_feature_mismatch (ext : Externals) : Bool :=
  match ext.n_features_in with
  | none => false
  | some n => n != FEATURE_COUNT

/-- The response body (app.py lines 1044-1051), minus the echoed
coin/horizon strings. -/
structure PredictResponse where
  requested_start_timestamp : ℚ
  last_observed_timestamp : ℚ
  last_observed_close : ℝ
  future_predictions : List ForecastStep

/-- The successful tail of `predict` (app.py lines 985-1051): compute the
calibration ratio once, run the warmup loop, then the forecasting loop, and
assemble the response. -/
noncomputable def run_forecast (ext : Externals) (df : List FeatureRow)
    (H : ℕ) (steps_ahead : ℕ) (warmup : ℕ) (start_ts : ℚ) : PredictResponse :=
  let base_timestamp := last_ts df
  let base_close := last_close df
  let ratio := calibration_ratio ext df base_close
  let w1 := warmup_loop ext H ratio warmup df
  { requested_start_timestamp := start_ts
    last_observed_timestamp := base_timestamp
    last_observed_close := base_close
    future_predictions := forecast_loop ext H ratio steps_ahead w1 }

/-- The `/predict` endpoint (app.py lines 882-1051).  Inputs beyond the
request body: `now` is `datetime.utcnow()` frozen for the call; `df` is the
history window delivered by the external history provider (live Binance
klines or the processed CSV — the core treats both identically once rows
are in FeatureRow shape, so the choice is a collaborator concern); `ext`
bundles the loaded model and scalers.  Validation order follows the source:
coin (line 891), horizon (line 893), steps_ahead (line 896), scaler arity
(line 929), history length (line 938), warmup cap (line 975). -/
noncomputable def predict (ext : Externals) (now : ℚ) (df : List FeatureRow)
    (req : PredictRequest) : Except PredictError PredictResponse :=
  if req.coin ∉ SUPPORTED_COINS then
    Except.error PredictError.unsupportedCoin
  else if req.horizon_hours ∉ SUPPORTED_HORIZON_HOURS then
    Except.error PredictError.unsupportedHorizon
  else if req.steps_ahead ≤ 0 then
    Except.error PredictError.invalidStepCount
  else if scaler_feature_mismatch ext then
    Except.error PredictError.featureScalerMismatch
  else if df.length < SEQ_LEN then
    Except.error PredictError.insufficientHistory
  else if MAX_WARMUP_STEPS <
      warmup_steps_of (resolve_start req.start_timestamp req.use_live_data now (last_ts df))
        (last_ts df) req.horizon_hours then
    Except.error PredictError.excessiveWarmup
  else
    Except.ok (run_forecast ext df req.horizon_hours req.steps_ahead.toNat
      (warmup_steps_of (resolve_start req.start_timestamp req.use_live_data now (last_ts df))
        (last_ts df) req.horizon_hours).toNat
      (resolve_start req.start_timestamp req.use_live_data now (last_ts df)))

/-! Concrete fixtures used to instantiate the theorems below on closed
inputs: a constant historical row, windows of various lengths, a trivial
but well-formed set of externals (identity scalers, constant regressor) and
a few request bodies. -/

/-- A constant, fully populated historical row at timestamp 0. -/
noncomputable def rowW : FeatureRow :=
  { ts := 0
    open_price := 100
    high := 100
    low := 100
    close := 100
    volume := 100
    missing_flag := 0
    return_1h := 0
    volatility_24h := 0
    ma_24 := 100
    ma_168 := 100
    ma_ratio := 1
    vol_change := 0 }

/-- A one-row window. -/
noncomputable def dfW1 : List FeatureRow := [rowW]

/-- A two-row window. -/
noncomputable def dfW2 : List FeatureRow := [rowW, rowW]

/-- A 48-row window (the minimum history `predict` accepts). -/
noncomputable def dfW48 : List FeatureRow := List.replicate 48 rowW

/-- A 49-row window (long enough for the calibration retrodiction). -/
noncomputable def dfW49 : List FeatureRow := List.replicate 49 rowW

/-- Trivial externals: identity feature scaler of arity 11, constant
regressor output 1, identity price scaler with feature range (0, 1). -/
noncomputable def extW : Externals :=
  { transform := fun m => m
    n_features_in := some 11
    model_predict := fun _ => 1
    feature_range := (0, 1)
    inverse_transform := fun x => x }

/-- A valid request: bitcoin, 1h horizon, 2 steps, no start, static data. -/
def reqSteps2 : PredictRequest :=
  { coin := "bitcoin"
    horizon_hours := 1
    start_timestamp := none
    steps_ahead := 2
    use_live_data := false }

/-- A request whose start lies 49 one-hour steps beyond timestamp 0. -/
def reqStart49 : PredictRequest :=
  { coin := "bitcoin"
    horizon_hours := 1
    start_timestamp := some 49
    steps_ahead := 1
    use_live_data := false }

/-- A request whose start lies 50 one-hour steps beyond timestamp 0. -/
def reqStart50 : PredictRequest :=
  { coin := "bitcoin"
    horizon_hours := 1
    start_timestamp := some 50
    steps_ahead := 1
    use_live_data := false }

/-- The response `predict extW 0 dfW48 reqSteps2` produces (spelled as the
successful tail of `predict` at those arguments). -/
noncomputable def respW : PredictResponse :=
  run_forecast extW dfW48 reqSteps2.horizon_hours reqSteps2.steps_ahead.toNat
    (warmup_steps_of
      (resolve_start reqSteps2.start_timestamp reqSteps2.use_live_data 0 (last_ts dfW48))
      (last_ts dfW48) reqSteps2.horizon_hours).toNat
    (resolve_start reqSteps2.start_timestamp reqSteps2.use_live_data 0 (last_ts dfW48))

/-! ## Helper lemmas -/

theorem append_synthetic_row_eq (df_ext : List FeatureRow) (prev : FeatureRow)
    (ts : ℚ) (close_price : ℝ) (horizon_hours : ℕ)
    (hprev : df_ext.getLast? = some prev) :
    append_synthetic_row df_ext ts close_price horizon_hours
      = some (df_ext ++ [mkSyntheticRow df_ext prev ts close_price horizon_hours]) := by
  simp [append_synthetic_row, hprev]

theorem mkSyntheticRow_open_price (df : List FeatureRow) (prev : FeatureRow)
    (ts : ℚ) (cp : ℝ) (H : ℕ) :
    (mkSyntheticRow df prev ts cp H).open_price = prev.close := rfl

theorem mkSyntheticRow_close (df : List FeatureRow) (prev : FeatureRow)
    (ts : ℚ) (cp : ℝ) (H : ℕ) :
    (mkSyntheticRow df prev ts cp H).close = cp := rfl

theorem mkSyntheticRow_high (df : List FeatureRow) (prev : FeatureRow)
    (ts : ℚ) (cp : ℝ) (H : ℕ) :
    (mkSyntheticRow df prev ts cp H).high = max prev.close cp := rfl

theorem mkSyntheticRow_low (df : List FeatureRow) (prev : FeatureRow)
    (ts : ℚ) (cp : ℝ) (H : ℕ) :
    (mkSyntheticRow df prev ts cp H).low = min prev.close cp := rfl

theorem mkSyntheticRow_volume (df : List FeatureRow) (prev : FeatureRow)
    (ts : ℚ) (cp : ℝ) (H : ℕ) :
    (mkSyntheticRow df prev ts cp H).volume = prev.volume := rfl

theorem mkSyntheticRow_ts (df : List FeatureRow) (prev : FeatureRow)
    (ts : ℚ) (cp : ℝ) (H : ℕ) :
    (mkSyntheticRow df prev ts cp H).ts = ts := rfl

theorem mkSyntheticRow_vol_change (df : List FeatureRow) (prev : FeatureRow)
    (ts : ℚ) (cp : ℝ) (H : ℕ) :
    (mkSyntheticRow df prev ts cp H).vol_change
      = if prev.volume ≠ 0 then prev.volume / prev.volume - 1 else 0 := rfl

/-! ## C5: synthesized-row construction and the FeatureRow invariant -/

/-- C5: from a non-empty window (last row `prev`), the synthesizer appends
exactly the row with open = prev.close, close = predicted close,
high = max(open, close), low = min(open, close), volume = prev.volume and
missing_flag = 1; hence low ≤ min(open, close) and high ≥ max(open, close)
hold for the synthesized row. -/
theorem synthetic_row_construction (df : List FeatureRow) (ts : ℚ) (close_price : ℝ)
    (horizon_hours : ℕ) (prev : FeatureRow)
    (hprev : df.getLast? = some prev) :
    append_synthetic_row df ts close_price horizon_hours
      = some (df ++ [mkSyntheticRow df prev ts close_price horizon_hours]) ∧
    (mkSyntheticRow df prev ts close_price horizon_hours).open_price = prev.close ∧
    (mkSyntheticRow df prev ts close_price horizon_hours).close = close_price ∧
    (mkSyntheticRow df prev ts close_price horizon_hours).high
      = max (mkSyntheticRow df prev ts close_price horizon_hours).open_price
          (mkSyntheticRow df prev ts close_price horizon_hours).close ∧
    (mkSyntheticRow df prev ts close_price horizon_hours).low
      = min (mkSyntheticRow df prev ts close_price horizon_hours).open_price
          (mkSyntheticRow df prev ts close_price horizon_hours).close ∧
    (mkSyntheticRow df prev ts close_price horizon_hours).volume = prev.volume ∧
    (mkSyntheticRow df prev ts close_price horizon_hours).missing_flag = 1 ∧
    (mkSyntheticRow df prev ts close_price horizon_hours).low
      ≤ min (mkSyntheticRow df prev ts close_price horizon_hours).open_price
          (mkSyntheticRow df prev ts close_price horizon_hours).close ∧
    max (mkSyntheticRow df prev ts close_price horizon_hours).open_price
        (mkSyntheticRow df prev ts close_price horizon_hours).close
      ≤ (mkSyntheticRow df prev ts close_price horizon_hours).high := by
  refine ⟨append_synthetic_row_eq df prev ts close_price horizon_hours hprev,
    rfl, rfl, rfl, rfl, rfl, rfl, le_of_eq rfl, le_of_eq rfl⟩

/-- Witness for C5 at a concrete input. -/
theorem synthetic_row_construction_witness :
    dfW1.getLast? = some rowW ∧
    (append_synthetic_row dfW1 1 90 1 = some (dfW1 ++ [mkSyntheticRow dfW1 rowW 1 90 1]) ∧
      (mkSyntheticRow dfW1 rowW 1 90 1).open_price = rowW.close ∧
      (mkSyntheticRow dfW1 rowW 1 90 1).close = 90 ∧
      (mkSyntheticRow dfW1 rowW 1 90 1).high
        = max (mkSyntheticRow dfW1 rowW 1 90 1).open_price (mkSyntheticRow dfW1 rowW 1 90 1).close ∧
      (mkSyntheticRow dfW1 rowW 1 90 1).low
        = min (mkSyntheticRow dfW1 rowW 1 90 1).open_price (mkSyntheticRow dfW1 rowW 1 90 1).close ∧
      (mkSyntheticRow dfW1 rowW 1 90 1).volume = rowW.volume ∧
      (mkSyntheticRow dfW1 rowW 1 90 1).missing_flag = 1 ∧
      (mkSyntheticRow dfW1 rowW 1 90 1).low
        ≤ min (mkSyntheticRow dfW1 rowW 1 90 1).open_price (mkSyntheticRow dfW1 rowW 1 90 1).close ∧
      max (mkSyntheticRow dfW1 rowW 1 90 1).open_price (mkSyntheticRow dfW1 rowW 1 90 1).close
        ≤ (mkSyntheticRow dfW1 rowW 1 90 1).high) :=
  ⟨rfl, synthetic_row_construction dfW1 1 90 1 rowW rfl⟩

/-! ## C10: vol_change of a synthesized row is unconditionally zero -/

/-- C10: because the synthesized volume is carried forward from the previous
row, vol_change of every synthesized row is 0 — in the nonzero case the
ratio prev.volume / prev.volume - 1 vanishes, and the zero-volume guard also
yields 0. -/
theorem synthetic_vol_change_zero (df : List FeatureRow) (ts : ℚ) (close_price : ℝ)
    (horizon_hours : ℕ) (prev : FeatureRow)
    (hprev : df.getLast? = some prev) :
    (mkSyntheticRow df prev ts close_price horizon_hours).vol_change = 0 ∧
    append_synthetic_row df ts close_price horizon_hours
      = some (df ++ [mkSyntheticRow df prev ts close_price horizon_hours]) := by
  refine ⟨?_, append_synthetic_row_eq df prev ts close_price horizon_hours hprev⟩
  rw [mkSyntheticRow_vol_change]
  by_cases hv : prev.volume = 0
  · simp [hv]
  · simp [hv, div_self hv]

/-- Witness for C10 at a concrete input (previous volume 100 ≠ 0). -/
theorem synthetic_vol_change_zero_witness :
    dfW1.getLast? = some rowW ∧
    ((mkSyntheticRow dfW1 rowW 2 105 24).vol_change = 0 ∧
      append_synthetic_row dfW1 2 105 24 = some (dfW1 ++ [mkSyntheticRow dfW1 rowW 2 105 24])) :=
  ⟨rfl, synthetic_vol_change_zero dfW1 2 105 24 rowW rfl⟩

/-! ## C6: return_1h of a synthesized row -/

theorem mkSyntheticRow_return_1h (df : List FeatureRow) (prev : FeatureRow)
    (ts : ℚ) (cp : ℝ) (H : ℕ) :
    (mkSyntheticRow df prev ts cp H).return_1h
      = if 1 < H then
          if -1 < (if prev.close ≠ 0 then cp / prev.close - 1 else 0) then
            (1 + (if prev.close ≠ 0 then cp / prev.close - 1 else 0)) ^ ((1 : ℝ) / (H : ℝ)) - 1
          else (if prev.close ≠ 0 then cp / prev.close - 1 else 0) / (H : ℝ)
        else (if prev.close ≠ 0 then cp / prev.close - 1 else 0) := rfl

/-- C6: for a synthesize call on a window of length ≥ 2 whose last row has a
nonzero close, with step_return = close'/previous.close - 1: a horizon above
one hour geometrically down-scales the step return when step_return > -1 and
falls back to the linear rate otherwise, and a one-hour horizon keeps the
step return unchanged. -/
theorem synthetic_return_1h_spec (df : List FeatureRow) (ts : ℚ) (close_price : ℝ)
    (horizon_hours : ℕ) (prev : FeatureRow)
    (hlen : 2 ≤ df.length)
    (hprev : df.getLast? = some prev)
    (hpc : prev.close ≠ 0) :
    (1 < horizon_hours → -1 < close_price / prev.close - 1 →
      (mkSyntheticRow df prev ts close_price horizon_hours).return_1h
        = (1 + (close_price / prev.close - 1)) ^ ((1 : ℝ) / (horizon_hours : ℝ)) - 1) ∧
    (1 < horizon_hours → close_price / prev.close - 1 ≤ -1 →
      (mkSyntheticRow df prev ts close_price horizon_hours).return_1h
        = (close_price / prev.close - 1) / (horizon_hours : ℝ)) ∧
    (horizon_hours = 1 →
      (mkSyntheticRow df prev ts close_price horizon_hours).return_1h
        = close_price / prev.close - 1) := by
  rw [mkSyntheticRow_return_1h]
  simp only [if_pos hpc]
  refine ⟨?_, ?_, ?_⟩
  · intro hH hr
    rw [if_pos hH, if_pos hr]
  · intro hH hr
    rw [if_pos hH, if_neg (not_lt.mpr hr)]
  · intro hH
    subst hH
    rw [if_neg (lt_irrefl 1)]

/-- Witness for C6 at a concrete input: two-row window, previous close 100,
predicted close 100, 24-hour horizon, so step_return = 0 > -1 and the
geometric branch fires. -/
theorem synthetic_return_1h_witness :
    2 ≤ dfW2.length ∧ rowW.close ≠ 0 ∧
    ((1 < 24 → -1 < (100 : ℝ) / rowW.close - 1 →
        (mkSyntheticRow dfW2 rowW 1 100 24).return_1h
          = (1 + ((100 : ℝ) / rowW.close - 1)) ^ ((1 : ℝ) / ((24 : ℕ) : ℝ)) - 1) ∧
      (1 < 24 → (100 : ℝ) / rowW.close - 1 ≤ -1 →
        (mkSyntheticRow dfW2 rowW 1 100 24).return_1h
          = ((100 : ℝ) / rowW.close - 1) / ((24 : ℕ) : ℝ)) ∧
      ((24 : ℕ) = 1 →
        (mkSyntheticRow dfW2 rowW 1 100 24).return_1h = (100 : ℝ) / rowW.close - 1)) :=
  ⟨by norm_num [dfW2], by norm_num [rowW],
    synthetic_return_1h_spec dfW2 1 100 24 rowW (by norm_num [dfW2]) rfl (by norm_num [rowW])⟩

/-! ## C7: moving-average windows of a synthesized row -/

theorem mkSyntheticRow_ma_24 (df : List FeatureRow) (prev : FeatureRow)
    (ts : ℚ) (cp : ℝ) (H : ℕ) :
    (mkSyntheticRow df prev ts cp H).ma_24
      = listMean (lastN (min (max 1 (24 / H)) (df.length + 1))
          (df.map FeatureRow.close ++ [cp])) := rfl

theorem mkSyntheticRow_ma_168 (df : List FeatureRow) (prev : FeatureRow)
    (ts : ℚ) (cp : ℝ) (H : ℕ) :
    (mkSyntheticRow df prev ts cp H).ma_168
      = listMean (lastN (min (max 1 (168 / H)) (df.length + 1))
          (df.map FeatureRow.close ++ [cp])) := rfl

/-- C7: the synthesized ma_24 and ma_168 are arithmetic means of close over
the max(1, round(window_hours / horizon_hours)) most recent rows of the
extended window (clipped to the window's length, which only matters when the
whole extended window is shorter than the span); for the supported horizons
1 and 24 the truncating division the code uses agrees with rounding, and at
a 24-hour horizon the spans degenerate to 1 row and 7 rows. -/
theorem synthetic_ma_spec (df : List FeatureRow) (ts : ℚ) (close_price : ℝ)
    (horizon_hours : ℕ) (prev : FeatureRow)
    (hprev : df.getLast? = some prev)
    (hH : horizon_hours = 1 ∨ horizon_hours = 24) :
    (mkSyntheticRow df prev ts close_price horizon_hours).ma_24
      = listMean (lastN (min (max 1 (24 / horizon_hours)) (df.length + 1))
          (df.map FeatureRow.close ++ [close_price])) ∧
    (mkSyntheticRow df prev ts close_price horizon_hours).ma_168
      = listMean (lastN (min (max 1 (168 / horizon_hours)) (df.length + 1))
          (df.map FeatureRow.close ++ [close_price])) ∧
    ((max 1 (24 / horizon_hours) : ℕ) : ℤ)
      = max 1 (round ((24 : ℚ) / (horizon_hours : ℚ))) ∧
    ((max 1 (168 / horizon_hours) : ℕ) : ℤ)
      = max 1 (round ((168 : ℚ) / (horizon_hours : ℚ))) ∧
    (horizon_hours = 24 → max 1 (24 / horizon_hours) = 1 ∧ max 1 (168 / horizon_hours) = 7) := by
  refine ⟨rfl, rfl, ?_, ?_, ?_⟩
  · rcases hH with rfl | rfl <;> norm_num
  · rcases hH with rfl | rfl <;> norm_num
  · intro h24
    subst h24
    exact ⟨rfl, rfl⟩

/-- Witness for C7 at a concrete input with a 24-hour horizon. -/
theorem synthetic_ma_witness :
    dfW1.getLast? = some rowW ∧ ((24 : ℕ) = 1 ∨ (24 : ℕ) = 24) ∧
    ((mkSyntheticRow dfW1 rowW 1 90 24).ma_24
        = listMean (lastN (min (max 1 (24 / 24)) (dfW1.length + 1))
            (dfW1.map FeatureRow.close ++ [90])) ∧
      (mkSyntheticRow dfW1 rowW 1 90 24).ma_168
        = listMean (lastN (min (max 1 (168 / 24)) (dfW1.length + 1))
            (dfW1.map FeatureRow.close ++ [90])) ∧
      ((max 1 (24 / 24) : ℕ) : ℤ) = max 1 (round ((24 : ℚ) / ((24 : ℕ) : ℚ))) ∧
      ((max 1 (168 / 24) : ℕ) : ℤ) = max 1 (round ((168 : ℚ) / ((24 : ℕ) : ℚ))) ∧
      ((24 : ℕ) = 24 → max 1 (24 / 24) = 1 ∧ max 1 (168 / 24) = 7)) :=
  ⟨rfl, Or.inr rfl, synthetic_ma_spec dfW1 1 90 24 rowW rfl (Or.inr rfl)⟩

/-! ## C8: appending a synthetic row preserves the existing rows -/

/-- C8: on a non-empty window with a fresh timestamp beyond every existing
row, the synthesizer returns a window with exactly one more row, and every
pre-existing row is unchanged in the result (the embedding is a pure
function, so the input list itself is of course left intact). -/
theorem synthetic_append_frame (df : List FeatureRow) (ts : ℚ) (close_price : ℝ)
    (horizon_hours : ℕ) (out : List FeatureRow)
    (hne : df ≠ [])
    (hts : ∀ r ∈ df, r.ts < ts)
    (hout : append_synthetic_row df ts close_price horizon_hours = some out) :
    out.length = df.length + 1 ∧
    out.take df.length = df ∧
    ∀ i, i < df.length → out[i]? = df[i]? := by
  obtain ⟨prev, hprev⟩ : ∃ p, df.getLast? = some p := by
    cases h : df.getLast? with
    | none => exact absurd (List.getLast?_eq_none_iff.mp h) hne
    | some p => exact ⟨p, rfl⟩
  rw [append_synthetic_row_eq df prev ts close_price horizon_hours hprev] at hout
  obtain rfl : df ++ [mkSyntheticRow df prev ts close_price horizon_hours] = out :=
    Option.some.inj hout
  refine ⟨by simp, by simp, ?_⟩
  intro i hi
  rw [List.getElem?_append, if_pos hi]

/-- Witness for C8 at a concrete input. -/
theorem synthetic_append_frame_witness :
    dfW1 ≠ [] ∧ (∀ r ∈ dfW1, r.ts < 1) ∧
    ((dfW1 ++ [mkSyntheticRow dfW1 rowW 1 90 1]).length = dfW1.length + 1 ∧
      (dfW1 ++ [mkSyntheticRow dfW1 rowW 1 90 1]).take dfW1.length = dfW1 ∧
      ∀ i, i < dfW1.length →
        (dfW1 ++ [mkSyntheticRow dfW1 rowW 1 90 1])[i]? = dfW1[i]?) :=
  ⟨by simp [dfW1], by norm_num [dfW1, rowW],
    synthetic_append_frame dfW1 1 90 1 (dfW1 ++ [mkSyntheticRow dfW1 rowW 1 90 1])
      (by simp [dfW1]) (by norm_num [dfW1, rowW])
      (append_synthetic_row_eq dfW1 rowW 1 90 1 rfl)⟩

/-! ## C1: the calibration ratio -/

/-- C1: the calibration ratio equals clamp(actual/predicted, 0.8, 1.2) when
the window has at least SEQ_LEN + 1 = 49 rows and the retrodicted now is
positive; it equals 1.0 in every other case; and it always lies in
[0.8, 1.2].  (It is computed once per request, before the step loops: see
`run_forecast`, where `ratio` is bound once and reused by both loops.) -/
theorem calibration_ratio_spec (ext : Externals) (base_df : List FeatureRow)
    (base_close : ℝ) :
    (SEQ_LEN + 1 ≤ base_df.length → 0 < pred_now ext base_df →
      calibration_ratio ext base_df base_close
        = max 0.8 (min 1.2 (base_close / pred_now ext base_df))) ∧
    (base_df.length < SEQ_LEN + 1 ∨ pred_now ext base_df ≤ 0 →
      calibration_ratio ext base_df base_close = 1) ∧
    0.8 ≤ calibration_ratio ext base_df base_close ∧
    calibration_ratio ext base_df base_close ≤ 1.2 := by
  unfold calibration_ratio
  refine ⟨?_, ?_, ?_, ?_⟩
  · intro hl hp
    rw [if_pos hl, if_pos hp]
  · intro h
    rcases h with h | h
    · rw [if_neg (not_le.mpr h)]
    · rcases le_or_lt (SEQ_LEN + 1) base_df.length with hl | hl
      · rw [if_pos hl, if_neg (not_lt.mpr h)]
      · rw [if_neg (not_le.mpr hl)]
  · split_ifs with h1 h2
    · exact le_max_left _ _
    · norm_num
    · norm_num
  · split_ifs with h1 h2
    · exact max_le (by norm_num) (min_le_left _ _)
    · norm_num
    · norm_num

/-- Witness for C1 at a concrete input: a 49-row window and trivial
externals whose retrodicted now is 1 > 0. -/
theorem calibration_ratio_witness :
    SEQ_LEN + 1 ≤ dfW49.length ∧ 0 < pred_now extW dfW49 ∧
    calibration_ratio extW dfW49 100
      = max 0.8 (min 1.2 (100 / pred_now extW dfW49)) := by
  have hl : SEQ_LEN + 1 ≤ dfW49.length := by simp [dfW49, SEQ_LEN]
  have hp : 0 < pred_now extW dfW49 := by
    show (0 : ℝ) < extW.inverse_transform _
    simp only [extW, pred_now, pipeline, npClip]
    norm_num
  exact ⟨hl, hp, (calibration_ratio_spec extW dfW49 100).1 hl hp⟩

/-! ## C2: the warmup-step computation -/

/-- C2: warmup_steps is 0 when the resolved start is at or before the last
observed timestamp (in particular when start_timestamp is omitted with a
static source, where the start resolves to the last observed timestamp),
and max(0, ceil((start - base)/step) - 1) otherwise. -/
theorem warmup_steps_spec (start_ts base_timestamp now : ℚ) (H : ℕ) :
    (start_ts ≤ base_timestamp → warmup_steps_of start_ts base_timestamp H = 0) ∧
    (base_timestamp < start_ts →
      warmup_steps_of start_ts base_timestamp H
        = max 0 (⌈(start_ts - base_timestamp) / (H : ℚ)⌉ - 1)) ∧
    resolve_start none false now base_timestamp = base_timestamp ∧
    warmup_steps_of (resolve_start none false now base_timestamp) base_timestamp H = 0 := by
  refine ⟨?_, ?_, rfl, ?_⟩
  · intro h
    rw [warmup_steps_of, if_pos h]
  · intro h
    rw [warmup_steps_of, if_neg (not_le.mpr h)]
  · show warmup_steps_of base_timestamp base_timestamp H = 0
    rw [warmup_steps_of, if_pos le_rfl]

/-- Witness for C2 at concrete inputs: start 5h past base 3 with a 1-hour
step gives max(0, ceil(2) - 1) = 1; an omitted start with a static source
gives 0. -/
theorem warmup_steps_witness :
    (3 : ℚ) < 5 ∧
    warmup_steps_of 5 3 1 = max 0 (⌈((5 : ℚ) - 3) / ((1 : ℕ) : ℚ)⌉ - 1) ∧
    warmup_steps_of (resolve_start none false 99 3) 3 1 = 0 := by
  have h : (3 : ℚ) < 5 := by norm_num
  exact ⟨h, (warmup_steps_spec 5 3 99 1).2.1 h, (warmup_steps_spec 5 3 99 1).2.2.2⟩

/-! ## Driver loop lemmas -/

theorem last_ts_concat (w : List FeatureRow) (r : FeatureRow) :
    last_ts (w ++ [r]) = r.ts := by
  simp [last_ts]

theorem exists_getLast?_of_ne_nil (w : List FeatureRow) (hw : w ≠ []) :
    ∃ p, w.getLast? = some p := by
  cases h : w.getLast? with
  | none => exact absurd (List.getLast?_eq_none_iff.mp h) hw
  | some p => exact ⟨p, rfl⟩

theorem step_window_eq (ext : Externals) (H : ℕ) (ratio : ℝ) (w : List FeatureRow)
    (prev : FeatureRow) (hprev : w.getLast? = some prev) :
    step_window ext H ratio w
      = w ++ [mkSyntheticRow w prev (last_ts w + (H : ℚ))
          (pipeline ext (lastN SEQ_LEN w) * ratio) H] := by
  show (append_synthetic_row w (last_ts w + (H : ℚ))
      (pipeline ext (lastN SEQ_LEN w) * ratio) H).getD w = _
  rw [append_synthetic_row_eq w prev _ _ _ hprev]
  rfl

theorem step_window_ne_nil (ext : Externals) (H : ℕ) (ratio : ℝ) (w : List FeatureRow)
    (hw : w ≠ []) : step_window ext H ratio w ≠ [] := by
  obtain ⟨p, hp⟩ := exists_getLast?_of_ne_nil w hw
  rw [step_window_eq ext H ratio w p hp]
  simp

theorem last_ts_step_window (ext : Externals) (H : ℕ) (ratio : ℝ) (w : List FeatureRow)
    (hw : w ≠ []) : last_ts (step_window ext H ratio w) = last_ts w + (H : ℚ) := by
  obtain ⟨p, hp⟩ := exists_getLast?_of_ne_nil w hw
  rw [step_window_eq ext H ratio w p hp, last_ts_concat, mkSyntheticRow_ts]

theorem warmup_loop_ne_nil (ext : Externals) (H : ℕ) (ratio : ℝ) (n : ℕ) :
    ∀ w : List FeatureRow, w ≠ [] → warmup_loop ext H ratio n w ≠ [] := by
  induction n with
  | zero => intro w hw; exact hw
  | succ n ih =>
      intro w hw
      simp only [warmup_loop]
      exact ih _ (step_window_ne_nil ext H ratio w hw)

theorem last_ts_warmup_loop (ext : Externals) (H : ℕ) (ratio : ℝ) (n : ℕ) :
    ∀ w : List FeatureRow, w ≠ [] →
      last_ts (warmup_loop ext H ratio n w) = last_ts w + (n : ℚ) * (H : ℚ) := by
  induction n with
  | zero => intro w hw; simp [warmup_loop]
  | succ n ih =>
      intro w hw
      simp only [warmup_loop]
      rw [ih _ (step_window_ne_nil ext H ratio w hw),
        last_ts_step_window ext H ratio w hw]
      push_cast
      ring

theorem forecast_loop_length (ext : Externals) (H : ℕ) (ratio : ℝ) (n : ℕ) :
    ∀ w : List FeatureRow, (forecast_loop ext H ratio n w).length = n := by
  induction n with
  | zero => intro w; rfl
  | succ n ih =>
      intro w
      simp only [forecast_loop, List.length_cons, ih]

theorem forecast_loop_timestamp (ext : Externals) (H : ℕ) (ratio : ℝ) (n : ℕ) :
    ∀ (w : List FeatureRow), w ≠ [] →
      ∀ (i : ℕ) (hi : i < (forecast_loop ext H ratio n w).length),
        ((forecast_loop ext H ratio n w).get ⟨i, hi⟩).timestamp
          = last_ts w + ((i : ℚ) + 1) * (H : ℚ) := by
  induction n with
  | zero =>
      intro w hw i hi
      simp only [forecast_loop, List.length_nil] at hi
      omega
  | succ n ih =>
      intro w hw i hi
      cases i with
      | zero =>
          simp only [forecast_loop, List.get]
          ring
      | succ i =>
          simp only [forecast_loop, List.get]
          have hi' : i < (forecast_loop ext H ratio n (step_window ext H ratio w)).length := by
            simp only [forecast_loop, List.length_cons] at hi
            omega
          rw [ih (step_window ext H ratio w) (step_window_ne_nil ext H ratio w hw) i hi',
            last_ts_step_window ext H ratio w hw]
          push_cast
          ring

/-! ## Predict: success-path characterization -/

theorem predict_ok_of_valid (ext : Externals) (now : ℚ) (df : List FeatureRow)
    (req : PredictRequest)
    (hc : req.coin ∈ SUPPORTED_COINS)
    (hh : req.horizon_hours ∈ SUPPORTED_HORIZON_HOURS)
    (hs : 0 < req.steps_ahead)
    (hm : scaler_feature_mismatch ext = false)
    (hl : SEQ_LEN ≤ df.length)
    (hw : warmup_steps_of (resolve_start req.start_timestamp req.use_live_data now (last_ts df))
        (last_ts df) req.horizon_hours ≤ MAX_WARMUP_STEPS) :
    predict ext now df req
      = Except.ok (run_forecast ext df req.horizon_hours req.steps_ahead.toNat
          (warmup_steps_of (resolve_start req.start_timestamp req.use_live_data now (last_ts df))
            (last_ts df) req.horizon_hours).toNat
          (resolve_start req.start_timestamp req.use_live_data now (last_ts df))) := by
  unfold predict
  rw [if_neg (not_not_intro hc), if_neg (not_not_intro hh),
    if_neg (not_le.mpr hs), if_neg (by simp [hm]), if_neg (not_lt.mpr hl),
    if_neg (not_lt.mpr hw)]

theorem predict_ok_inv (ext : Externals) (now : ℚ) (df : List FeatureRow)
    (req : PredictRequest) (resp : PredictResponse)
    (hok : predict ext now df req = Except.ok resp) :
    req.coin ∈ SUPPORTED_COINS ∧
    req.horizon_hours ∈ SUPPORTED_HORIZON_HOURS ∧
    0 < req.steps_ahead ∧
    SEQ_LEN ≤ df.length ∧
    warmup_steps_of (resolve_start req.start_timestamp req.use_live_data now (last_ts df))
        (last_ts df) req.horizon_hours ≤ MAX_WARMUP_STEPS ∧
    resp = run_forecast ext df req.horizon_hours req.steps_ahead.toNat
        (warmup_steps_of (resolve_start req.start_timestamp req.use_live_data now (last_ts df))
          (last_ts df) req.horizon_hours).toNat
        (resolve_start req.start_timestamp req.use_live_data now (last_ts df)) := by
  unfold predict at hok
  split_ifs at hok with h1 h2 h3 h4 h5 h6
  exact ⟨h1, h2, not_le.mp h3, not_lt.mp h5, not_lt.mp h6, (Except.ok.inj hok).symm⟩

/-! ## C4: the returned forecast steps -/

/-- C4: every request that completes returns exactly steps_ahead forecast
steps; the i-th returned timestamp is base_timestamp + (warmup_steps + 1 + i)
horizon-hours, so the first returned timestamp is base_timestamp +
(warmup_steps + 1) * horizon_hours (no warmup step is returned), consecutive
timestamps differ by exactly horizon_hours hours, and the list is strictly
ordered by timestamp. -/
theorem predict_future_steps (ext : Externals) (now : ℚ) (df : List FeatureRow)
    (req : PredictRequest) (resp : PredictResponse)
    (hok : predict ext now df req = Except.ok resp) :
    resp.future_predictions.length = req.steps_ahead.toNat ∧
    (∀ (i : ℕ) (hi : i < resp.future_predictions.length),
      (resp.future_predictions.get ⟨i, hi⟩).timestamp
        = last_ts df
          + (((warmup_steps_of
                (resolve_start req.start_timestamp req.use_live_data now (last_ts df))
                (last_ts df) req.horizon_hours).toNat : ℚ) + 1 + (i : ℚ))
            * (req.horizon_hours : ℚ)) ∧
    (∀ (i : ℕ) (hi : i < resp.future_predictions.length)
        (hi1 : i + 1 < resp.future_predictions.length),
      (resp.future_predictions.get ⟨i + 1, hi1⟩).timestamp
        = (resp.future_predictions.get ⟨i, hi⟩).timestamp + (req.horizon_hours : ℚ)) ∧
    (∀ (i : ℕ) (hi : i < resp.future_predictions.length)
        (hi1 : i + 1 < resp.future_predictions.length),
      (resp.future_predictions.get ⟨i, hi⟩).timestamp
        < (resp.future_predictions.get ⟨i + 1, hi1⟩).timestamp) := by
  obtain ⟨hc, hh, hs, hl, hw, rfl⟩ := predict_ok_inv ext now df req resp hok
  have hne : df ≠ [] := by
    intro h
    rw [h] at hl
    simp [SEQ_LEN] at hl
  have hH1 : 1 ≤ req.horizon_hours := by
    simp only [SUPPORTED_HORIZON_HOURS, List.mem_cons, List.mem_singleton,
      List.not_mem_nil, or_false] at hh
    rcases hh with h | h <;> omega
  have hH0 : (0 : ℚ) < (req.horizon_hours : ℚ) := by
    exact_mod_cast Nat.lt_of_lt_of_le Nat.zero_lt_one hH1
  simp only [run_forecast]
  have hne1 : warmup_loop ext req.horizon_hours
      (calibration_ratio ext df (last_close df))
      (warmup_steps_of (resolve_start req.start_timestamp req.use_live_data now (last_ts df))
        (last_ts df) req.horizon_hours).toNat df ≠ [] :=
    warmup_loop_ne_nil ext req.horizon_hours (calibration_ratio ext df (last_close df))
      (warmup_steps_of (resolve_start req.start_timestamp req.use_live_data now (last_ts df))
        (last_ts df) req.horizon_hours).toNat df hne
  have hbase := last_ts_warmup_loop ext req.horizon_hours
    (calibration_ratio ext df (last_close df))
    (warmup_steps_of (resolve_start req.start_timestamp req.use_live_data now (last_ts df))
      (last_ts df) req.horizon_hours).toNat df hne
  refine ⟨forecast_loop_length _ _ _ _ _, ?_, ?_, ?_⟩
  · intro i hi
    rw [forecast_loop_timestamp _ _ _ _ _ hne1 i hi, hbase]
    ring
  · intro i hi hi1
    rw [forecast_loop_timestamp _ _ _ _ _ hne1 (i + 1) hi1,
      forecast_loop_timestamp _ _ _ _ _ hne1 i hi]
    push_cast
    ring
  · intro i hi hi1
    rw [forecast_loop_timestamp _ _ _ _ _ hne1 (i + 1) hi1,
      forecast_loop_timestamp _ _ _ _ _ hne1 i hi]
    have hexp : last_ts (warmup_loop ext req.horizon_hours
          (calibration_ratio ext df (last_close df))
          (warmup_steps_of (resolve_start req.start_timestamp req.use_live_data now (last_ts df))
            (last_ts df) req.horizon_hours).toNat df)
          + (((i : ℚ) + 1) + 1) * (req.horizon_hours : ℚ)
        = (last_ts (warmup_loop ext req.horizon_hours
            (calibration_ratio ext df (last_close df))
            (warmup_steps_of (resolve_start req.start_timestamp req.use_live_data now (last_ts df))
              (last_ts df) req.horizon_hours).toNat df)
            + ((i : ℚ) + 1) * (req.horizon_hours : ℚ)) + (req.horizon_hours : ℚ) := by
      ring
    push_cast
    rw [hexp]
    linarith

/-- Witness for C4: a concrete completed request (static source, omitted
start, two steps ahead) instantiating the step-list properties. -/
theorem predict_future_steps_witness :
    predict extW 0 dfW48 reqSteps2 = Except.ok respW ∧
    respW.future_predictions.length = (2 : ℤ).toNat ∧
    (∀ (i : ℕ) (hi : i < respW.future_predictions.length),
      (respW.future_predictions.get ⟨i, hi⟩).timestamp
        = last_ts dfW48
          + (((warmup_steps_of
                (resolve_start reqSteps2.start_timestamp reqSteps2.use_live_data 0 (last_ts dfW48))
                (last_ts dfW48) reqSteps2.horizon_hours).toNat : ℚ) + 1 + (i : ℚ))
            * (reqSteps2.horizon_hours : ℚ)) := by
  have hm : scaler_feature_mismatch extW = false := rfl
  have hB : last_ts dfW48 = 0 := rfl
  have hw : warmup_steps_of
      (resolve_start reqSteps2.start_timestamp reqSteps2.use_live_data 0 (last_ts dfW48))
      (last_ts dfW48) reqSteps2.horizon_hours ≤ MAX_WARMUP_STEPS := by
    rw [hB]
    norm_num [reqSteps2, resolve_start, warmup_steps_of, MAX_WARMUP_STEPS, SEQ_LEN]
  have hok : predict extW 0 dfW48 reqSteps2 = Except.ok respW :=
    predict_ok_of_valid extW 0 dfW48 reqSteps2 (by simp [reqSteps2, SUPPORTED_COINS])
      (by simp [reqSteps2, SUPPORTED_HORIZON_HOURS]) (by norm_num [reqSteps2]) hm
      (by simp [dfW48, SEQ_LEN]) hw
  have h := predict_future_steps extW 0 dfW48 reqSteps2 respW hok
  exact ⟨hok, h.1, h.2.1⟩

/-! ## C3: the excessive-warmup guard (off by one against the claim) -/

/-- C3 counterexample: a start_timestamp 49 one-hour steps beyond the base —
more than L = 48 steps beyond it — is NOT rejected: it yields
ceil(49/1) - 1 = 48 warmup steps, the cap check `48 > 48` is false, and the
request completes with an ok response instead of the excessive-warmup
error. -/
theorem excessive_warmup_counterexample :
    last_ts dfW48 + 48 * ((reqStart49.horizon_hours : ℕ) : ℚ)
      < resolve_start reqStart49.start_timestamp reqStart49.use_live_data 0 (last_ts dfW48) ∧
    warmup_steps_of
      (resolve_start reqStart49.start_timestamp reqStart49.use_live_data 0 (last_ts dfW48))
      (last_ts dfW48) reqStart49.horizon_hours = 48 ∧
    predict extW 0 dfW48 reqStart49 ≠ Except.error PredictError.excessiveWarmup := by
  have hB : last_ts dfW48 = 0 := rfl
  have hres : resolve_start reqStart49.start_timestamp reqStart49.use_live_data 0
      (last_ts dfW48) = 49 := rfl
  have hwv : warmup_steps_of (49 : ℚ) 0 1 = 48 := by
    rw [warmup_steps_of, if_neg (by norm_num)]
    norm_num
  have hww : warmup_steps_of
      (resolve_start reqStart49.start_timestamp reqStart49.use_live_data 0 (last_ts dfW48))
      (last_ts dfW48) reqStart49.horizon_hours = 48 := by
    rw [hres, hB]
    exact hwv
  refine ⟨?_, hww, ?_⟩
  · rw [hres, hB]
    norm_num [reqStart49]
  · have hw : warmup_steps_of
        (resolve_start reqStart49.start_timestamp reqStart49.use_live_data 0 (last_ts dfW48))
        (last_ts dfW48) reqStart49.horizon_hours ≤ MAX_WARMUP_STEPS := by
      rw [hww]
      norm_num [MAX_WARMUP_STEPS, SEQ_LEN]
    rw [predict_ok_of_valid extW 0 dfW48 reqStart49 (by simp [reqStart49, SUPPORTED_COINS])
      (by simp [reqStart49, SUPPORTED_HORIZON_HOURS]) (by norm_num [reqStart49]) rfl
      (by simp [dfW48, SEQ_LEN]) hw]
    simp

/-- C3 (amended): a start_timestamp more than L + 1 = 49 steps of
horizon_hours hours beyond the base timestamp is rejected with the
excessive-warmup error — `predict` returns it from the guard, before any
prediction step runs.  (As the counterexample shows, the rejection threshold
the code implements is 49 steps beyond the base, not 48: `warmup_steps`
subtracts one from the ceiling, so only starts strictly beyond
base + 49 * horizon hours drive `warmup_steps` above the cap of 48.) -/
theorem predict_excessive_warmup_amended (ext : Externals) (now : ℚ)
    (df : List FeatureRow) (req : PredictRequest)
    (hc : req.coin ∈ SUPPORTED_COINS)
    (hh : req.horizon_hours ∈ SUPPORTED_HORIZON_HOURS)
    (hs : 0 < req.steps_ahead)
    (hm : scaler_feature_mismatch ext = false)
    (hl : SEQ_LEN ≤ df.length)
    (hfar : last_ts df + 49 * (req.horizon_hours : ℚ)
      < resolve_start req.start_timestamp req.use_live_data now (last_ts df)) :
    predict ext now df req = Except.error PredictError.excessiveWarmup := by
  have hH1 : 1 ≤ req.horizon_hours := by
    simp only [SUPPORTED_HORIZON_HOURS, List.mem_cons, List.mem_singleton,
      List.not_mem_nil, or_false] at hh
    rcases hh with h | h <;> omega
  have hH0 : (0 : ℚ) < (req.horizon_hours : ℚ) := by
    have : (1 : ℚ) ≤ (req.horizon_hours : ℚ) := by exact_mod_cast hH1
    linarith
  have hSB : last_ts df
      < resolve_start req.start_timestamp req.use_live_data now (last_ts df) := by
    have h49 : (0 : ℚ) ≤ 49 * (req.horizon_hours : ℚ) := by positivity
    linarith
  have hceil : (49 : ℤ) < ⌈(resolve_start req.start_timestamp req.use_live_data now (last_ts df)
      - last_ts df) / (req.horizon_hours : ℚ)⌉ := by
    rw [Int.lt_ceil, lt_div_iff₀ hH0]
    push_cast
    linarith
  have hwval : MAX_WARMUP_STEPS <
      warmup_steps_of (resolve_start req.start_timestamp req.use_live_data now (last_ts df))
        (last_ts df) req.horizon_hours := by
    rw [warmup_steps_of, if_neg (not_le.mpr hSB)]
    have h48 : (48 : ℤ) < ⌈(resolve_start req.start_timestamp req.use_live_data now (last_ts df)
        - last_ts df) / (req.horizon_hours : ℚ)⌉ - 1 := by omega
    have hmax : ⌈(resolve_start req.start_timestamp req.use_live_data now (last_ts df)
        - last_ts df) / (req.horizon_hours : ℚ)⌉ - 1
        ≤ max 0 (⌈(resolve_start req.start_timestamp req.use_live_data now (last_ts df)
            - last_ts df) / (req.horizon_hours : ℚ)⌉ - 1) := le_max_right 0 _
    have : (48 : ℤ) = MAX_WARMUP_STEPS := by decide
    omega
  unfold predict
  rw [if_neg (not_not_intro hc), if_neg (not_not_intro hh), if_neg (not_le.mpr hs),
    if_neg (by simp [hm]), if_neg (not_lt.mpr hl), if_pos hwval]

/-- Witness for the amended C3: a start 50 one-hour steps beyond the base is
rejected with the excessive-warmup error. -/
theorem predict_excessive_warmup_witness :
    last_ts dfW48 + 49 * ((reqStart50.horizon_hours : ℕ) : ℚ)
      < resolve_start reqStart50.start_timestamp reqStart50.use_live_data 0 (last_ts dfW48) ∧
    predict extW 0 dfW48 reqStart50 = Except.error PredictError.excessiveWarmup := by
  have hfar : last_ts dfW48 + 49 * ((reqStart50.horizon_hours : ℕ) : ℚ)
      < resolve_start reqStart50.start_timestamp reqStart50.use_live_data 0 (last_ts dfW48) := by
    rw [show last_ts dfW48 = 0 from rfl,
      show resolve_start reqStart50.start_timestamp reqStart50.use_live_data 0 0 = 50 from rfl]
    norm_num [reqStart50]
  exact ⟨hfar, predict_excessive_warmup_amended extW 0 dfW48 reqStart50
    (by simp [reqStart50, SUPPORTED_COINS]) (by simp [reqStart50, SUPPORTED_HORIZON_HOURS])
    (by norm_num [reqStart50]) rfl (by simp [dfW48, SEQ_LEN]) hfar⟩

/-! ## C9: determinism of the forecast operation -/

/-- C9: the embedded forecast operation is a pure function of the externals
(the deterministic regressor and scalers of §6), the frozen now, the base
window and the request: two runs on identical inputs return identical
results, every field of every forecast step included. -/
theorem predict_deterministic (ext : Externals) (now : ℚ) (df : List FeatureRow)
    (req : PredictRequest) (r1 r2 : Except PredictError PredictResponse)
    (h1 : predict ext now df req = r1) (h2 : predict ext now df req = r2) :
    r1 = r2 :=
  h1.symm.trans h2

/-- Witness for C9 at a concrete input. -/
theorem predict_deterministic_witness :
    predict extW 0 dfW48 reqSteps2 = predict extW 0 dfW48 reqSteps2 :=
  predict_deterministic extW 0 dfW48 reqSteps2 _ _ rfl rfl

end Quantara
